import Mathlib

/-!
Verification of `src/tests_e2e/recipes/lib1/lib1.h`.

The header is a 26-line C header whose whole content is preprocessor
conditionals.  We embed the effect of preprocessing one inclusion of the
header as a function from the four external switches (`_WIN32`, `IS_DLL`,
`PKGA_LIB`, `__cplusplus`) and the translation-unit preprocessor state
(pragma-once flag, current definition of the `API` macro) to the list of
tokens the header contributes to the translation unit, or a preprocessing
error (macro redefinition with a different body, C11 6.10.3p2).
-/

namespace Lib1

/-- The four external switches `lib1.h` reacts to but does not define:
target platform (`_WIN32`), shared-library build (`IS_DLL`), building the
library itself versus consuming it (`PKGA_LIB`), and C++ translation unit
(`__cplusplus`). -/
structure Switches where
  win32 : Bool
  isDll : Bool
  pkgaLib : Bool
  cplusplus : Bool
deriving DecidableEq

/-- C types occurring in the header: only the native signed `int`. -/
inductive CType
  | int
deriving DecidableEq, Repr

/-- Replacement bodies of the `API` macro, one per define site in the
header: `__declspec(dllexport)` (line 11), `__declspec(dllimport)`
(line 13), and the empty body (lines 16 and 19). -/
inductive ApiBody
  | exportB
  | importB
  | empty
deriving DecidableEq, Repr

/-- Tokens the header contributes to the including translation unit. -/
inductive Tok
  /-- the text `extern "C"` of line 4 -/
  | cLink
  /-- the opening brace of line 5 -/
  | lbrace
  /-- the closing brace of line 25 -/
  | rbrace
  /-- a `__declspec(...)` visibility attribute, from expanding `API` -/
  | declspec (attr : String)
  /-- the function declaration `int func1(int x);` of line 22 -/
  | declFunc (name : String) (ret : CType) (param : CType)
deriving DecidableEq, Repr

/-- Preprocessing error: a macro is redefined with a different body. -/
inductive PPError
  | redefinition
deriving DecidableEq, Repr

/-- Translation-unit preprocessor state relevant to `lib1.h`: whether the
file was already included (its `#pragma once` fired), and the current
definition of the `API` macro, if any. -/
structure PPState where
  lib1Once : Bool
  api : Option ApiBody
deriving DecidableEq, Repr

/-- State of a fresh translation unit: header not yet included, `API`
undefined. -/
def initState : PPState := { lib1Once := false, api := none }

/-- Token expansion of each `API` body. -/
def apiTokens : ApiBody → List Tok
  | .exportB => [.declspec "dllexport"]
  | .importB => [.declspec "dllimport"]
  | .empty => []

/-- The define site selected by the nested conditionals of lines 8-20 of
the header: under `_WIN32`, `IS_DLL` chooses between the
`dllexport`/`dllimport` pair (split by `PKGA_LIB`) and the empty body;
outside `_WIN32` the body is empty. -/
def apiBody (s : Switches) : ApiBody :=
  if s.win32 then
    if s.isDll then
      if s.pkgaLib then .exportB else .importB
    else .empty
  else .empty

/-- Effect of the `#define API ...` directive on the macro table:
defining a fresh macro records its body; redefining with an identical
body is a no-op; redefining with a different body is an error. -/
def defineApi (st : PPState) (b : ApiBody) : Except PPError PPState :=
  match st.api with
  | none => .ok { st with api := some b }
  | some b0 => if b0 = b then .ok st else .error .redefinition

/-- One inclusion of `lib1.h` in a translation unit with switch setting
`s` and preprocessor state `st`.  Line 1 (`#pragma once`) skips the whole
file on re-inclusion.  Otherwise lines 3-6 emit `extern "C" {` when
`__cplusplus` is defined, lines 8-20 define `API`, line 22 expands `API`
and declares `func1`, lines 24-26 emit the closing `}` when
`__cplusplus` is defined. -/
def processLib1 (s : Switches) (st : PPState) :
    Except PPError (PPState × List Tok) :=
  if st.lib1Once then .ok (st, [])
  else do
    let st1 : PPState := { st with lib1Once := true }
    let head := if s.cplusplus then [Tok.cLink, Tok.lbrace] else []
    let b := apiBody s
    let st2 ← defineApi st1 b
    let declLine := apiTokens b ++ [Tok.declFunc "func1" CType.int CType.int]
    let tail := if s.cplusplus then [Tok.rbrace] else []
    .ok (st2, head ++ declLine ++ tail)

/-- Tokens contributed by including `lib1.h` once in a fresh translation
unit (empty on the error case, which never occurs). -/
def outOf (s : Switches) : List Tok :=
  match processLib1 s initState with
  | .ok (_, o) => o
  | .error _ => []

/-- Preprocessor state after including `lib1.h` once in a fresh
translation unit. -/
def stateOf (s : Switches) : PPState :=
  match processLib1 s initState with
  | .ok (st, _) => st
  | .error _ => initState

/-- Including `lib1.h` twice in sequence in a fresh translation unit,
concatenating the contributed tokens. -/
def includeTwice (s : Switches) : Except PPError (PPState × List Tok) := do
  let (st1, o1) ← processLib1 s initState
  let (st2, o2) ← processLib1 s st1
  .ok (st2, o1 ++ o2)

/-- Whether a preprocessing run succeeded. -/
def exOk : Except PPError (PPState × List Tok) → Bool
  | .ok _ => true
  | .error _ => false

/-- The visibility attributes occurring in a token list, in order. -/
def visAttrs : List Tok → List String
  | [] => []
  | .declspec a :: ts => a :: visAttrs ts
  | _ :: ts => visAttrs ts

/-- The function declarations occurring in a token list, in order, as
(name, return type, parameter type) triples. -/
def declsOf : List Tok → List (String × CType × CType)
  | [] => []
  | .declFunc n r p :: ts => (n, r, p) :: declsOf ts
  | _ :: ts => declsOf ts

/-- Whether a token list contains the `extern "C"` linkage token. -/
def hasCLink : List Tok → Bool
  | [] => false
  | .cLink :: _ => true
  | _ :: ts => hasCLink ts

/-- Whether a token list contains no brace token. -/
def noBraces : List Tok → Bool
  | [] => true
  | .lbrace :: _ => false
  | .rbrace :: _ => false
  | _ :: ts => noBraces ts

/-- Braces in the token list are balanced and properly nested, starting
from nesting depth `d`: a closing brace never appears at depth zero and
the final depth is zero. -/
def braceOk : List Tok → Nat → Bool
  | [], d => d == 0
  | .lbrace :: ts, d => braceOk ts (d + 1)
  | .rbrace :: ts, d => d != 0 && braceOk ts (d - 1)
  | _ :: ts, d => braceOk ts d

/-- Number of `true` entries in a list of booleans. -/
def countTrue (l : List Bool) : Nat :=
  l.foldl (fun n b => if b then n + 1 else n) 0

/-- Guard condition of the define site at line 11 of the header:
`_WIN32` and `IS_DLL` and `PKGA_LIB`. -/
def guardExport (s : Switches) : Bool := s.win32 && s.isDll && s.pkgaLib

/-- Guard condition of the define site at line 13 of the header:
`_WIN32` and `IS_DLL` and not `PKGA_LIB`. -/
def guardImport (s : Switches) : Bool := s.win32 && s.isDll && !s.pkgaLib

/-- Guard condition of the define site at line 16 of the header:
`_WIN32` and not `IS_DLL`. -/
def guardStatic (s : Switches) : Bool := s.win32 && !s.isDll

/-- Guard condition of the define site at line 19 of the header: not
`_WIN32`. -/
def guardOther (s : Switches) : Bool := !s.win32

/-- Modelled from the spec: the reference implementation named in the
spec's end-to-end scenario, `int func1(int x) { return x + 1; }`.  The
object file defining `func1` is external to the repository (only the
header is under `src`).  C `int` arithmetic is 32-bit two's complement,
embedded by reducing the mathematical sum into the interval
[-2^31, 2^31). -/
def func1Impl (x : Int) : Int := ((x + 1 + 2 ^ 31) % 2 ^ 32) - 2 ^ 31

/-- C1: on a Windows-like target, the `API` macro and the emitted
visibility attribute follow the spec's matrix exactly: `dllexport` when
`IS_DLL` and `PKGA_LIB` are both defined, `dllimport` when `IS_DLL` is
defined and `PKGA_LIB` is not, and empty (no attribute) when `IS_DLL` is
not defined, regardless of `PKGA_LIB` (and of `__cplusplus`). -/
theorem api_matrix_win32 (p c : Bool) :
    visAttrs (outOf ⟨true, true, true, c⟩) = ["dllexport"] ∧
    (stateOf ⟨true, true, true, c⟩).api = some ApiBody.exportB ∧
    visAttrs (outOf ⟨true, true, false, c⟩) = ["dllimport"] ∧
    (stateOf ⟨true, true, false, c⟩).api = some ApiBody.importB ∧
    visAttrs (outOf ⟨true, false, p, c⟩) = [] ∧
    (stateOf ⟨true, false, p, c⟩).api = some ApiBody.empty := by
  cases p <;> cases c <;> exact ⟨rfl, rfl, rfl, rfl, rfl, rfl⟩

/-- C2: on a non-Windows-like target the `API` macro is defined empty and
no visibility attribute is emitted before the declaration of `func1`, for
every setting of the other switches. -/
theorem api_empty_other (d p c : Bool) :
    visAttrs (outOf ⟨false, d, p, c⟩) = [] ∧
    (stateOf ⟨false, d, p, c⟩).api = some ApiBody.empty ∧
    declsOf (outOf ⟨false, d, p, c⟩) = [("func1", CType.int, CType.int)] := by
  cases d <;> cases p <;> cases c <;> exact ⟨rfl, rfl, rfl⟩

/-- C3: in a C++ translation unit the output is exactly the declaration
of `func1` (preceded by the selected `API` expansion) enclosed between
the `extern "C"` opening tokens and the matching closing brace; the
enclosed part contains no brace and the whole output is brace-balanced,
for every setting of the platform and library switches. -/
theorem cLink_block_cpp (w d p : Bool) :
    outOf ⟨w, d, p, true⟩ =
      [Tok.cLink, Tok.lbrace] ++
        (apiTokens (apiBody ⟨w, d, p, true⟩) ++
          [Tok.declFunc "func1" CType.int CType.int]) ++ [Tok.rbrace] ∧
    noBraces (apiTokens (apiBody ⟨w, d, p, true⟩) ++
      [Tok.declFunc "func1" CType.int CType.int]) = true ∧
    braceOk (outOf ⟨w, d, p, true⟩) 0 = true := by
  cases w <;> cases d <;> cases p <;> exact ⟨rfl, rfl, rfl⟩

/-- C4: the header is idempotent under multiple inclusion: including it
twice in a fresh translation unit succeeds and yields exactly the state
and token contribution of including it once, for every combination of
the switches. -/
theorem include_idempotent (w d p c : Bool) :
    includeTwice ⟨w, d, p, c⟩ = processLib1 ⟨w, d, p, c⟩ initState := by
  cases w <;> cases d <;> cases p <;> cases c <;> rfl

/-- C5: every preprocessed output of the header declares exactly one
function, named `func1`, with one parameter of native signed-integer
type and a native signed-integer return value. -/
theorem one_decl_func1 (w d p c : Bool) :
    declsOf (outOf ⟨w, d, p, c⟩) = [("func1", CType.int, CType.int)] := by
  cases w <;> cases d <;> cases p <;> cases c <;> rfl

/-- C6: the header declares `func1` with the `int -> int` signature, and
the reference implementation `x + 1` of the spec's end-to-end scenario
applied to 5 returns 6, for every combination of the switches. -/
theorem func1_call_five (w d p c : Bool) :
    declsOf (outOf ⟨w, d, p, c⟩) = [("func1", CType.int, CType.int)] ∧
    func1Impl 5 = 6 := by
  cases w <;> cases d <;> cases p <;> cases c <;> exact ⟨rfl, by decide⟩

/-- C7: preprocessing the header succeeds for every combination of the
four external switches: the embedded preprocessing function is total and
no branch yields an error on a fresh translation unit. -/
theorem process_total (w d p c : Bool) :
    exOk (processLib1 ⟨w, d, p, c⟩ initState) = true := by
  cases w <;> cases d <;> cases p <;> cases c <;> rfl

/-- C8: for every combination of the switches exactly one of the four
define-site guards of the header holds, and after inclusion the `API`
macro remains defined in the translation unit. -/
theorem api_guards_exhaustive (w d p c : Bool) :
    countTrue [guardExport ⟨w, d, p, c⟩, guardImport ⟨w, d, p, c⟩,
      guardStatic ⟨w, d, p, c⟩, guardOther ⟨w, d, p, c⟩] = 1 ∧
    (stateOf ⟨w, d, p, c⟩).api.isSome = true := by
  cases w <;> cases d <;> cases p <;> cases c <;> exact ⟨rfl, rfl⟩

/-- C9: noninterference of the two concerns: the emitted visibility
attributes are unchanged by toggling `__cplusplus`, and the presence of
the `extern "C"` linkage tokens is unchanged by toggling `_WIN32`,
`IS_DLL` or `PKGA_LIB`. -/
theorem concerns_noninterference (w d p c c' w2 d2 p2 : Bool) :
    visAttrs (outOf ⟨w, d, p, c⟩) = visAttrs (outOf ⟨w, d, p, c'⟩) ∧
    hasCLink (outOf ⟨w, d, p, c⟩) = hasCLink (outOf ⟨w2, d2, p2, c⟩) := by
  cases w <;> cases d <;> cases p <;> cases c <;> cases c' <;>
    cases w2 <;> cases d2 <;> cases p2 <;> exact ⟨rfl, rfl⟩

/-- C10: in a C translation unit no linkage tokens are emitted at all:
the output is exactly the selected `API` expansion followed by the plain
declaration of `func1`, and it is brace-balanced. -/
theorem no_cLink_in_c (w d p : Bool) :
    outOf ⟨w, d, p, false⟩ =
      apiTokens (apiBody ⟨w, d, p, false⟩) ++
        [Tok.declFunc "func1" CType.int CType.int] ∧
    hasCLink (outOf ⟨w, d, p, false⟩) = false ∧
    braceOk (outOf ⟨w, d, p, false⟩) 0 = true := by
  cases w <;> cases d <;> cases p <;> exact ⟨rfl, rfl, rfl⟩

end Lib1
